/-
Verification of the polling-and-notification engine of the SOOP/CHZZK
live notifier extension (MV3 service worker).

The definitions below are a shallow embedding of the service-worker code:
JavaScript objects become Lean structures, the persisted key-value maps
become association lists over `String` keys, machine time (`Date.now()`)
becomes an explicit `now : Int` parameter, and each outbound network call
becomes an explicit `Except`-valued outcome parameter (an `Except.error`
models the promise rejecting, e.g. a timeout raised by `withTimeout`).
JavaScript truthiness on strings ("" is falsy) is modelled by `strOr` and
`truthyStr`; a possibly-missing numeric field is an `Option Int`.
-/
import Mathlib

/-- JavaScript `a || b` on strings: `""` is the only falsy string. -/
def strOr (a b : String) : String :=
  if a = "" then b else a

/-- JS truthiness of a possibly-absent string field. -/
def truthyStr : Option String → Bool
  | some s => s ≠ ""
  | none => false

/-- JS truthiness of a possibly-absent numeric (timestamp) field: `0` is falsy. -/
def truthyInt : Option Int → Bool
  | some t => t ≠ 0
  | none => false

/-- Lookup in a JS-object-as-association-list (`obj[key]`, absent = `none`). -/
def lookupStore {α : Type} : List (String × α) → String → Option α
  | [], _ => none
  | (k, v) :: rest, key => if k = key then some v else lookupStore rest key

/-- Upsert in a JS-object-as-association-list (`obj[key] = v`). -/
def insertStore {α : Type} (m : List (String × α)) (key : String) (v : α) :
    List (String × α) :=
  match m with
  | [] => [(key, v)]
  | (k, w) :: rest =>
    if k = key then (k, v) :: rest else (k, w) :: insertStore rest key v

/-- A JS numeric input to `clampInt` after `Number.parseInt(String(n), 10)`:
either an integer, or `NaN` (non-numeric input). -/
inductive JsNum where
  | int (x : Int)
  | nan
deriving Repr, DecidableEq

/-- `clampInt(n, min, max)` from the service worker: `NaN` collapses to `min`,
otherwise the value is clamped via `Math.min(max, Math.max(min, x))`. -/
def clampInt (n : JsNum) (lo hi : Int) : Int :=
  match n with
  | .nan => lo
  | .int x => min hi (max lo x)

/-- The persisted `settings` record (after defaults are merged in). -/
structure Settings where
  pollIntervalMin : Int
  cooldownMin : Int
  notifyIfAlreadyLive : Bool
  requestTimeoutMs : Int
deriving Repr, DecidableEq

/-- A settings patch (possibly missing fields) as sent to `setSettings`: absent fields keep the
current value (JS spread `{ ...current, ...next }`); present numeric fields may
be non-numeric (`JsNum.nan`). -/
structure SettingsInput where
  pollIntervalMin : Option JsNum := none
  cooldownMin : Option JsNum := none
  notifyIfAlreadyLive : Option Bool := none
  requestTimeoutMs : Option JsNum := none
deriving Repr, DecidableEq

/-- `setSettings(next)`: merge the patch over the current settings, then clamp
`pollIntervalMin` into [1,60], `cooldownMin` into [0, 60*24] and
`requestTimeoutMs` into [2000, 30000]. -/
def setSettings (current : Settings) (next : SettingsInput) : Settings :=
  { pollIntervalMin :=
      clampInt (next.pollIntervalMin.getD (.int current.pollIntervalMin)) 1 60
    cooldownMin :=
      clampInt (next.cooldownMin.getD (.int current.cooldownMin)) 0 (60 * 24)
    notifyIfAlreadyLive :=
      next.notifyIfAlreadyLive.getD current.notifyIfAlreadyLive
    requestTimeoutMs :=
      clampInt (next.requestTimeoutMs.getD (.int current.requestTimeoutMs)) 2000 30000 }

/-- A `watchlist` entry: `{platform, id, name, key, addedAt}`. -/
structure Item where
  platform : String
  id : String
  name : String
  key : String
  addedAt : Int := 0
deriving Repr, DecidableEq

/-- Persisted `state[key]` record. -/
structure ChannelState where
  lastIsLive : Bool
  lastSig : String
  lastTitle : String
  updatedAt : Int
deriving Repr, DecidableEq

/-- Persisted `notified[key]` record; `lastNotifiedAt` is defensively read with
`|| 0` by the code, so it is modelled as possibly absent. -/
structure NotificationRecord where
  lastNotifiedSig : String
  lastNotifiedAt : Option Int
deriving Repr, DecidableEq

/-- The `notified` map, `key -> NotificationRecord`. -/
def NotifiedMap : Type := List (String × NotificationRecord)

/-- The normalized per-poll status produced by `safeFetchStatus`. -/
structure ChannelStatus where
  platform : String
  id : String
  key : String
  displayName : String
  isLive : Bool
  title : String
  signature : String
  url : String
deriving Repr, DecidableEq

/-- `canNotify(key, sig, notified, settings)`; `Date.now()` is the explicit
`now` argument. -/
def canNotify (key sig : String) (notified : NotifiedMap) (settings : Settings)
    (now : Int) : Bool :=
  let cooldownMs := settings.cooldownMin * 60 * 1000
  match lookupStore notified key with
  | none => true
  | some n =>
    if n.lastNotifiedSig = sig ∧ cooldownMs > 0 then
      decide (now - n.lastNotifiedAt.getD 0 ≥ cooldownMs)
    else true

/-- Result of `computeTransition`: `title`/`message` are `none` in the
non-notifying branches (the JS object omits the fields). -/
structure Transition where
  shouldNotify : Bool
  title : Option String := none
  message : Option String := none
deriving Repr, DecidableEq

/-- `computeTransition({prev, status, settings})` from the service worker. -/
def computeTransition (prev : Option ChannelState) (status : ChannelStatus)
    (settings : Settings) : Transition :=
  let isFirstSeen := prev.isNone
  if isFirstSeen && status.isLive && !settings.notifyIfAlreadyLive then
    { shouldNotify := false }
  else
    let prevLive := (prev.map (·.lastIsLive)).getD false
    let nowLive := status.isLive
    if !prevLive && nowLive then
      let who := strOr status.displayName status.id
      let title := who ++ " 방송 시작!"
      let message := strOr status.title "라이브가 시작되었습니다."
      { shouldNotify := true, title := some title, message := some message }
    else
      { shouldNotify := false }

/-- A rejected status fetch (the promise from
`withTimeout(fetchStatus(item), timeoutMs)` rejecting): either the timeout
fired or the underlying fetch raised. -/
inductive FetchErr where
  | timeout
  | other (msg : String)
deriving Repr, DecidableEq

/-- The raw `{isLive, title, signature, url}` object returned by a platform
adapter (`fetchChzzk` / `fetchSoop`) on success. -/
structure RawStatus where
  isLive : Bool
  title : String
  signature : String
  url : String
deriving Repr, DecidableEq

/-- `buildDefaultUrl(item)`. -/
def buildDefaultUrl (item : Item) : String :=
  if item.platform = "chzzk" then "https://chzzk.naver.com/live/" ++ item.id
  else if item.platform = "soop" then "https://play.sooplive.co.kr/" ++ item.id
  else "https://www.google.com"

/-- `safeFetchStatus(item, settings, prev)`: the `fetchOutcome` argument is the
result of `await withTimeout(fetchStatus(item), settings.requestTimeoutMs)`;
`Except.error` is the catch branch. -/
def safeFetchStatus (item : Item) (fetchOutcome : Except FetchErr RawStatus)
    (prev : Option ChannelState) : ChannelStatus :=
  match fetchOutcome with
  | .ok result =>
    { platform := item.platform
      id := item.id
      key := item.key
      displayName := strOr item.name ""
      isLive := result.isLive
      title := strOr result.title ""
      signature := strOr result.signature (if result.isLive then "LIVE" else "OFF")
      url := strOr result.url (buildDefaultUrl item) }
  | .error _ =>
    { platform := item.platform
      id := item.id
      key := item.key
      displayName := strOr item.name ""
      isLive := (prev.map (·.lastIsLive)).getD false
      title := strOr ((prev.map (·.lastTitle)).getD "") ""
      signature := strOr ((prev.map (·.lastSig)).getD "") "UNKNOWN"
      url := buildDefaultUrl item }

/-- `chrome.runtime.getURL("icons/icon128.png")`, a host-provided constant
string. -/
def DEFAULT_ICON_URL : String := "chrome-extension://soop-chzzk/icons/icon128.png"

/-- `notify({title, message, url, iconUrl})`, reduced to whether a notification
was actually shown. `host icon` models the outcome of
`createNotification(...)` with that `iconUrl` (`true` = created). On failure
with a non-default icon, the code retries once with the default icon. -/
def notifyRun (host : String → Bool) (iconUrl : String) : Bool :=
  let created := host (strOr iconUrl DEFAULT_ICON_URL)
  if created then true
  else if iconUrl ≠ "" ∧ iconUrl ≠ DEFAULT_ICON_URL then host DEFAULT_ICON_URL
  else false

/-- Outcome of one channel's slice of a `pollAll` cycle. -/
structure CycleOut where
  state : ChannelState
  notified : NotifiedMap
  didNotify : Bool
  shown : Bool

/-- The `state[item.key] = {...}` write at the end of a channel's poll. -/
def mkChannelState (status : ChannelStatus) (now : Int) : ChannelState :=
  { lastIsLive := status.isLive
    lastSig := status.signature
    lastTitle := strOr status.title ""
    updatedAt := now }

/-- One channel's body inside `pollAll`'s `mapPool` worker, given the already
resolved `status` (see `safeFetchStatus`) and the avatar resolution result
`avatarIcon` (see `getAvatarIconUrl`); `host` models the notification host.
Note the code records `notified[item.key]` and sets `didNotify = true` after
`await notify(...)` regardless of whether the notification was shown. -/
def pollChannel (settings : Settings) (host : String → Bool)
    (avatarIcon : Option String) (item : Item) (status : ChannelStatus)
    (prev : Option ChannelState) (notified : NotifiedMap) (now : Int) : CycleOut :=
  let transition := computeTransition prev status settings
  if transition.shouldNotify then
    if canNotify item.key status.signature notified settings now then
      let iconUrl := avatarIcon.getD DEFAULT_ICON_URL
      let shown := notifyRun host iconUrl
      { state := mkChannelState status now
        notified := insertStore notified item.key
          { lastNotifiedSig := status.signature, lastNotifiedAt := some now }
        didNotify := true
        shown := shown }
    else
      { state := mkChannelState status now, notified := notified
        didNotify := false, shown := false }
  else
    { state := mkChannelState status now, notified := notified
      didNotify := false, shown := false }

/-- Fold `pollChannel` over a sequence of poll cycles of one channel, each
cycle observing a given status at a given time; returns the per-cycle
`didNotify` flags. -/
def runCycles (settings : Settings) (host : String → Bool)
    (avatarIcon : Option String) (item : Item) :
    Option ChannelState → NotifiedMap → List (ChannelStatus × Int) → List Bool
  | _, _, [] => []
  | prev, notified, (status, now) :: rest =>
    let out := pollChannel settings host avatarIcon item status prev notified now
    out.didNotify ::
      runCycles settings host avatarIcon item (some out.state) out.notified rest

/-- Persisted `avatarCache[key]` entry:
`{url?, fetchedAt?, dataUrl?, dataFetchedAt?}`. -/
structure AvatarCacheEntry where
  url : Option String := none
  fetchedAt : Option Int := none
  dataUrl : Option String := none
  dataFetchedAt : Option Int := none
deriving Repr, DecidableEq

/-- The `avatarCache` map, `key -> AvatarCacheEntry`. -/
def AvatarCache : Type := List (String × AvatarCacheEntry)

/-- `AVATAR_CACHE_TTL_MS = 7 * 24 * 60 * 60 * 1000`. -/
def AVATAR_CACHE_TTL_MS : Int := 7 * 24 * 60 * 60 * 1000

/-- `AVATAR_ICON_MAX_BYTES = 512 * 1024`. -/
def AVATAR_ICON_MAX_BYTES : Nat := 512 * 1024

/-- The HTTP response observed inside `fetchImageAsDataUrl`: `ok` is
`res.ok`, `contentType` the `content-type` header (possibly empty),
`byteLength` the payload size, `base64Data` its base64 encoding
(`arrayBufferToBase64` is treated as a pure encoder). -/
structure ImgResponse where
  ok : Bool
  contentType : String
  byteLength : Nat
  base64Data : String
deriving Repr, DecidableEq

/-- `fetchImageAsDataUrl(imageUrl, {timeoutMs})`: `resp` is the outcome of the
`fetch` itself (`Except.error` = network failure or the abort fired); the
function then rejects on non-2xx, non-image content-type or oversized payload,
and otherwise resolves to a `data:` URL. An empty `imageUrl` resolves to
`null` up front. -/
def fetchImageAsDataUrl (imageUrl : String)
    (resp : Except String ImgResponse) : Except String (Option String) :=
  if imageUrl = "" then .ok none
  else
    match resp with
    | .error e => .error e
    | .ok r =>
      if !r.ok then .error "image HTTP error"
      else
        let contentType := r.contentType.toLower
        if contentType ≠ "" ∧ ¬ contentType.startsWith "image/" then
          .error ("not an image: " ++ contentType)
        else if r.byteLength > AVATAR_ICON_MAX_BYTES then
          .error "image too large"
        else
          .ok (some ("data:" ++ strOr contentType "image/png" ++ ";base64," ++ r.base64Data))

/-- Step 1 condition of `getAvatarIconUrl`: the cached `dataUrl` is present and
within TTL. -/
def freshDataCache (cached : AvatarCacheEntry) (now : Int) : Bool :=
  truthyStr cached.dataUrl && truthyInt cached.dataFetchedAt &&
    decide (now - cached.dataFetchedAt.getD 0 < AVATAR_CACHE_TTL_MS)

/-- Step 2 condition of `getAvatarIconUrl`: the cached remote `url` is present
and within TTL. -/
def freshUrlCache (cached : AvatarCacheEntry) (now : Int) : Bool :=
  truthyStr cached.url && truthyInt cached.fetchedAt &&
    decide (now - cached.fetchedAt.getD 0 < AVATAR_CACHE_TTL_MS)

/-- The body of `getAvatarIconUrl` up to (but excluding) its outer
`try/catch`. `urlFetch` is the outcome of the platform avatar-URL lookup
(`fetchChzzkAvatarUrl` / `fetchSoopAvatarUrl`): `Except.error` = it raised,
`.ok none` = it resolved to no URL. `imgFetch` is the network outcome used by
`fetchImageAsDataUrl`. A thrown error carries the cache as mutated so far,
because the code mutates `avatarCache` in place before the throw point. -/
def getAvatarIconUrlBody (item : Item) (cache : AvatarCache) (now : Int)
    (urlFetch : Except String (Option String))
    (imgFetch : Except String ImgResponse) :
    Except (String × AvatarCache) (Option String × AvatarCache) :=
  let cached := (lookupStore cache item.key).getD {}
  if freshDataCache cached now then
    .ok (cached.dataUrl, cache)
  else
    let urlStep : Except String (Option String × AvatarCache) :=
      if freshUrlCache cached now then
        .ok (cached.url, cache)
      else
        let fetched : Except String (Option String) :=
          if item.platform = "chzzk" ∨ item.platform = "soop" then urlFetch
          else .ok none
        match fetched with
        | .error e => .error e
        | .ok u =>
          if truthyStr u then
            .ok (u, insertStore cache item.key
                  { cached with url := u, fetchedAt := some now })
          else .ok (u, cache)
    match urlStep with
    | .error e => .error (e, cache)
    | .ok (u, cache1) =>
      if ¬ truthyStr u then .ok (none, cache1)
      else
        match fetchImageAsDataUrl (u.getD "") imgFetch with
        | .error e => .error (e, cache1)
        | .ok dataUrl =>
          if truthyStr dataUrl then
            let base := (lookupStore cache1 item.key).getD cached
            .ok (dataUrl, insertStore cache1 item.key
                  { base with dataUrl := dataUrl, dataFetchedAt := some now })
          else .ok (none, cache1)

/-- `getAvatarIconUrl(item, avatarCache)`: the outer `try/catch` turns any
thrown error into `null`, keeping whatever cache mutations already happened. -/
def getAvatarIconUrl (item : Item) (cache : AvatarCache) (now : Int)
    (urlFetch : Except String (Option String))
    (imgFetch : Except String ImgResponse) : Option String × AvatarCache :=
  match getAvatarIconUrlBody item cache now urlFetch imgFetch with
  | .ok r => r
  | .error (_, c) => (none, c)

/-- Does this image-fetch outcome make `fetchImageAsDataUrl` reject (for a
nonempty URL)? Covers network failure/timeout, non-2xx, non-image
content-type, and oversized payload. -/
def imgFetchFails : Except String ImgResponse → Bool
  | .error _ => true
  | .ok r =>
    !r.ok ||
      (r.contentType.toLower ≠ "" && !(r.contentType.toLower.startsWith "image/")) ||
      decide (r.byteLength > AVATAR_ICON_MAX_BYTES)

/-- State of `mapPool(items, limit, fn)` between suspension points:
`nextIdx` is the shared `idx` counter, `workers` the per-worker state
(`some i` = currently awaiting `fn(items[i], i)`, `none` = the worker's loop
has exited), `results` the shared results array (`none` = still unset, or set
to `null` because the task threw). -/
structure PoolState (β : Type) where
  nextIdx : Nat
  workers : List (Option Nat)
  results : List (Option β)
deriving Repr, DecidableEq

/-- `results[i] = await fn(items[i], i)` with the `catch` writing `null`:
the recorded slot value for one item. -/
def taskResult {ι β ε : Type} (task : ι → Except ε β) (it : ι) : Option β :=
  match task it with
  | .ok b => some b
  | .error _ => none

/-- The pool state right after `Array.from({length: min(limit, n)}, worker)`:
the workers are invoked synchronously in order, and each one synchronously
grabs the next index (`const i = idx++`) before its first `await`, so worker
`j` starts on task `j` and `idx = min(limit, n)`. -/
def initPool (β : Type) (limit n : Nat) : PoolState β :=
  { nextIdx := min limit n
    workers := (List.range (min limit n)).map some
    results := List.replicate n none }

/-- One scheduler step of `mapPool`: the `await fn(items[i], i)` of worker `j`
settles, the worker records `results[i]`, and in the same microtask its loop
either grabs the next index (if any remain) or exits. -/
inductive PoolStep {ι β ε : Type} (items : List ι) (task : ι → Except ε β) :
    PoolState β → PoolState β → Prop where
  | grab (s : PoolState β) (j i : Nat) (it : ι)
      (hw : s.workers.get? j = some (some i))
      (hit : items.get? i = some it)
      (hn : s.nextIdx < items.length) :
      PoolStep items task s
        { nextIdx := s.nextIdx + 1
          workers := s.workers.set j (some s.nextIdx)
          results := s.results.set i (taskResult task it) }
  | exit (s : PoolState β) (j i : Nat) (it : ι)
      (hw : s.workers.get? j = some (some i))
      (hit : items.get? i = some it)
      (hn : ¬ s.nextIdx < items.length) :
      PoolStep items task s
        { nextIdx := s.nextIdx
          workers := s.workers.set j none
          results := s.results.set i (taskResult task it) }

/-- All interleavings of `mapPool(items, limit, task)` reachable from the
initial state. -/
def PoolReachable {ι β ε : Type} (items : List ι) (task : ι → Except ε β)
    (limit : Nat) (s : PoolState β) : Prop :=
  Relation.ReflTransGen (PoolStep items task) (initPool β limit items.length) s

/-- Number of tasks currently in flight. -/
def runningCount (ws : List (Option Nat)) : Nat :=
  ws.countP Option.isSome

/-- Every worker's loop has exited: `Promise.all(workers)` has resolved and
`mapPool` returns `results`. -/
def allFinished (ws : List (Option Nat)) : Prop :=
  ∀ w ∈ ws, w = none

/-- Invariant of every reachable `mapPool` state (shared by the pool
theorems): worker count fixed, results array length fixed, every in-flight
task index already handed out, every handed-out index either recorded or in
flight, and a worker only exits after the items are exhausted. -/
structure PoolInv {ι β ε : Type} (items : List ι) (task : ι → Except ε β)
    (limit : Nat) (s : PoolState β) : Prop where
  workers_len : s.workers.length = min limit items.length
  results_len : s.results.length = items.length
  next_le : s.nextIdx ≤ items.length
  running_lt : ∀ j i, s.workers.get? j = some (some i) → i < s.nextIdx
  covered : ∀ i, i < s.nextIdx →
    s.results.get? i = (items.map (taskResult task)).get? i ∨
    ∃ j, s.workers.get? j = some (some i)
  exited_exhausted : (∃ j, s.workers.get? j = some none) → items.length ≤ s.nextIdx

/-- A concrete watch item used to instantiate theorems with hypotheses. -/
def wItem : Item :=
  { platform := "chzzk", id := "abc", name := "Streamer", key := "chzzk:abc" }

/-- A concrete offline status for `wItem`. -/
def wStatusOff : ChannelStatus :=
  { platform := "chzzk", id := "abc", key := "chzzk:abc", displayName := "Streamer"
    isLive := false, title := "", signature := "OFF"
    url := "https://chzzk.naver.com/live/abc" }

/-- A concrete live status for `wItem` with broadcast signature `OPEN:T`. -/
def wStatusLive : ChannelStatus :=
  { platform := "chzzk", id := "abc", key := "chzzk:abc", displayName := "Streamer"
    isLive := true, title := "T", signature := "OPEN:T"
    url := "https://chzzk.naver.com/live/abc" }

/-- Concrete settings used to instantiate theorems with hypotheses. -/
def wSettings : Settings :=
  { pollIntervalMin := 1, cooldownMin := 10, notifyIfAlreadyLive := false
    requestTimeoutMs := 5000 }

/-- A notification host on which `chrome.notifications.create` always
succeeds. -/
def hostOk : String → Bool := fun _ => true

/-- A notification host on which `chrome.notifications.create` always fails
(invokes the callback with `runtime.lastError` set), for any icon. -/
def hostFail : String → Bool := fun _ => false

/-- A concrete pool task that fails on input `11` and succeeds otherwise. -/
def wTask : Nat → Except String Nat :=
  fun n => if n = 11 then .error "boom" else .ok n

/-- A concrete always-succeeding pool task. -/
def wTaskOk : Nat → Except Unit Nat := fun n => .ok n

/-- A concrete previous `ChannelState` that was offline. -/
def wPrevOff : ChannelState :=
  { lastIsLive := false, lastSig := "OFF", lastTitle := "", updatedAt := 0 }

/-- A concrete previous `ChannelState` that was live. -/
def wPrevLive : ChannelState :=
  { lastIsLive := true, lastSig := "OPEN:T", lastTitle := "T", updatedAt := 5 }

theorem lookupStore_insertStore_self {α : Type} (m : List (String × α))
    (key : String) (v : α) :
    lookupStore (insertStore m key v) key = some v := by
  induction m with
  | nil => simp [insertStore, lookupStore]
  | cons hd tl ih =>
    obtain ⟨k, w⟩ := hd
    by_cases h : k = key
    · simp [insertStore, h, lookupStore]
    · simp [insertStore, h, lookupStore, ih]

theorem clampInt_bounds (n : JsNum) (lo hi : Int) (h : lo ≤ hi) :
    lo ≤ clampInt n lo hi ∧ clampInt n lo hi ≤ hi := by
  cases n with
  | nan => simp [clampInt, h]
  | int x => simp only [clampInt]; omega

/-- C2: `computeTransition` notifies exactly on "previous exists and was not
live and current is live", or "no previous state, current live, and
`notifyIfAlreadyLive` is set"; in all other cases it suppresses; when it
notifies, the title names the `displayName`-or-`id` and the message is the
current title or the generic started-fallback. -/
theorem computeTransition_spec (prev : Option ChannelState)
    (status : ChannelStatus) (s : Settings) :
    ((computeTransition prev status s).shouldNotify = true ↔
      (status.isLive = true ∧
        ((∃ p, prev = some p ∧ p.lastIsLive = false) ∨
          (prev = none ∧ s.notifyIfAlreadyLive = true)))) ∧
    (computeTransition prev status s).title =
      (if (computeTransition prev status s).shouldNotify then
        some (strOr status.displayName status.id ++ " 방송 시작!") else none) ∧
    (computeTransition prev status s).message =
      (if (computeTransition prev status s).shouldNotify then
        some (strOr status.title "라이브가 시작되었습니다.") else none) := by
  cases prev with
  | none =>
    cases hl : status.isLive <;> cases hn : s.notifyIfAlreadyLive <;>
      simp [computeTransition, hl, hn]
  | some p =>
    cases hl : status.isLive <;> cases hp : p.lastIsLive <;>
      simp [computeTransition, hl, hp]

/-- C3: `canNotify` allows when no record exists, when the recorded signature
differs, or when the cooldown is 0; with an equal signature and a positive
cooldown it allows iff `now - lastNotifiedAt >= cooldownMin * 60000`. -/
theorem canNotify_spec (key sig : String) (m : NotifiedMap) (s : Settings)
    (now : Int) (hcd : 0 ≤ s.cooldownMin) :
    canNotify key sig m s now = true ↔
      (lookupStore m key = none ∨
        ∃ n, lookupStore m key = some n ∧
          (n.lastNotifiedSig ≠ sig ∨ s.cooldownMin = 0 ∨
            now - n.lastNotifiedAt.getD 0 ≥ s.cooldownMin * 60000)) := by
  rcases hn : lookupStore m key with _ | n
  · simp [canNotify, hn]
  · by_cases hsig : n.lastNotifiedSig = sig
    · by_cases hc : s.cooldownMin = 0
      · simp [canNotify, hn, hc]
      · have hpos : s.cooldownMin * 60 * 1000 > 0 := by omega
        simp only [canNotify, hn, gt_iff_lt]
        rw [if_pos ⟨hsig, hpos⟩, decide_eq_true_iff]
        simp only [hn, Option.some.injEq, hsig, ne_eq, not_true_eq_false,
          false_or, reduceCtorEq]
        constructor
        · intro ht
          exact ⟨n, rfl, Or.inr (by omega)⟩
        · rintro ⟨n', heq, hP⟩
          subst heq
          rcases hP with h | h | h
          · exact absurd hsig h
          · exact absurd h hc
          · omega
    · have : ¬ (n.lastNotifiedSig = sig ∧ s.cooldownMin * 60 * 1000 > 0) := by
        intro h; exact hsig h.1
      simp [canNotify, hn, if_neg this, hsig]

/-- Witness for C3 at a concrete input: empty map, positive cooldown. -/
theorem canNotify_spec_witness :
    (0 : Int) ≤ wSettings.cooldownMin ∧
      (canNotify "chzzk:abc" "OPEN:T" [] wSettings 0 = true ↔
        (lookupStore ([] : NotifiedMap) "chzzk:abc" = none ∨
          ∃ n, lookupStore ([] : NotifiedMap) "chzzk:abc" = some n ∧
            (n.lastNotifiedSig ≠ "OPEN:T" ∨ wSettings.cooldownMin = 0 ∨
              (0 : Int) - n.lastNotifiedAt.getD 0 ≥ wSettings.cooldownMin * 60000))) :=
  ⟨by decide, canNotify_spec "chzzk:abc" "OPEN:T" [] wSettings 0 (by decide)⟩

/-- C6: `setSettings` never rejects: it merges the patch over the current
settings and clamps `pollIntervalMin` into [1,60], `cooldownMin` into
[0,1440], `requestTimeoutMs` into [2000,30000]; in particular
`pollIntervalMin = 0` persists as 1, `cooldownMin = -5` as 0 and
`requestTimeoutMs = 1` as 2000. -/
theorem setSettings_clamps :
    (∀ (current : Settings) (next : SettingsInput),
      1 ≤ (setSettings current next).pollIntervalMin ∧
      (setSettings current next).pollIntervalMin ≤ 60 ∧
      0 ≤ (setSettings current next).cooldownMin ∧
      (setSettings current next).cooldownMin ≤ 1440 ∧
      2000 ≤ (setSettings current next).requestTimeoutMs ∧
      (setSettings current next).requestTimeoutMs ≤ 30000) ∧
    (∀ current : Settings,
      (setSettings current { pollIntervalMin := some (.int 0) }).pollIntervalMin = 1 ∧
      (setSettings current { cooldownMin := some (.int (-5)) }).cooldownMin = 0 ∧
      (setSettings current { requestTimeoutMs := some (.int 1) }).requestTimeoutMs = 2000) := by
  constructor
  · intro current next
    obtain ⟨h1, h2⟩ := clampInt_bounds
      (next.pollIntervalMin.getD (.int current.pollIntervalMin)) 1 60 (by omega)
    obtain ⟨h3, h4⟩ := clampInt_bounds
      (next.cooldownMin.getD (.int current.cooldownMin)) 0 (60 * 24) (by omega)
    obtain ⟨h5, h6⟩ := clampInt_bounds
      (next.requestTimeoutMs.getD (.int current.requestTimeoutMs)) 2000 30000 (by omega)
    refine ⟨h1, h2, h3, ?_, h5, h6⟩
    · simpa [setSettings] using h4
  · intro current
    refine ⟨?_, ?_, ?_⟩ <;> simp [setSettings, clampInt]

/-- C4: when the status fetch rejects (e.g. a `Timeout`) and a previous
`ChannelState` exists, `safeFetchStatus` echoes the previous `lastIsLive`,
`lastTitle` and `lastSig`, the state persisted by the cycle keeps the previous
`lastIsLive` (never forced to `false`), and no notification fires from the
failure. (`lastSig ≠ ""` holds for every state the program writes, since
every produced signature is nonempty.) -/
theorem safeFetchStatus_failure_preserves (item : Item) (e : FetchErr)
    (p : ChannelState) (hsig : p.lastSig ≠ "") (settings : Settings)
    (host : String → Bool) (icon : Option String) (nmap : NotifiedMap)
    (now : Int) :
    (safeFetchStatus item (.error e) (some p)).isLive = p.lastIsLive ∧
    (safeFetchStatus item (.error e) (some p)).title = p.lastTitle ∧
    (safeFetchStatus item (.error e) (some p)).signature = p.lastSig ∧
    (pollChannel settings host icon item (safeFetchStatus item (.error e) (some p))
        (some p) nmap now).state.lastIsLive = p.lastIsLive ∧
    (pollChannel settings host icon item (safeFetchStatus item (.error e) (some p))
        (some p) nmap now).didNotify = false := by
  have hstat : (safeFetchStatus item (.error e) (some p)).isLive = p.lastIsLive := by
    simp [safeFetchStatus]
  have htitle : (safeFetchStatus item (.error e) (some p)).title = p.lastTitle := by
    by_cases ht : p.lastTitle = "" <;> simp [safeFetchStatus, strOr, ht]
  have hsigeq : (safeFetchStatus item (.error e) (some p)).signature = p.lastSig := by
    simp [safeFetchStatus, strOr, hsig]
  have hTrans :
      (computeTransition (some p) (safeFetchStatus item (.error e) (some p))
        settings).shouldNotify = false := by
    cases hp : p.lastIsLive <;> simp [computeTransition, safeFetchStatus, hp]
  refine ⟨hstat, htitle, hsigeq, ?_, ?_⟩ <;>
    simp [pollChannel, hTrans, mkChannelState, hstat]

/-- Witness for C4: concrete timeout against a previously-live channel. -/
theorem safeFetchStatus_failure_preserves_witness :
    wPrevLive.lastSig ≠ "" ∧
    ((safeFetchStatus wItem (.error .timeout) (some wPrevLive)).isLive =
        wPrevLive.lastIsLive ∧
      (safeFetchStatus wItem (.error .timeout) (some wPrevLive)).title =
        wPrevLive.lastTitle ∧
      (safeFetchStatus wItem (.error .timeout) (some wPrevLive)).signature =
        wPrevLive.lastSig ∧
      (pollChannel wSettings hostOk none wItem
          (safeFetchStatus wItem (.error .timeout) (some wPrevLive))
          (some wPrevLive) [] 100).state.lastIsLive = wPrevLive.lastIsLive ∧
      (pollChannel wSettings hostOk none wItem
          (safeFetchStatus wItem (.error .timeout) (some wPrevLive))
          (some wPrevLive) [] 100).didNotify = false) :=
  ⟨by decide,
    safeFetchStatus_failure_preserves wItem .timeout wPrevLive (by decide)
      wSettings hostOk none [] 100⟩

/-- C10: a first-ever poll that fails yields `isLive = false`, empty title and
the sentinel signature `"UNKNOWN"` instead of propagating the error; the cycle
writes a previous state, so on the next successful live poll the
first-seen-live suppression (`notifyIfAlreadyLive = false`) no longer applies
and the transition notifies. -/
theorem safeFetchStatus_first_failure_unknown (item : Item) (e : FetchErr)
    (settings : Settings) (host : String → Bool) (icon : Option String)
    (nmap : NotifiedMap) (now : Int) (live : ChannelStatus)
    (hlive : live.isLive = true)
    (hopt : settings.notifyIfAlreadyLive = false) :
    (safeFetchStatus item (.error e) none).isLive = false ∧
    (safeFetchStatus item (.error e) none).title = "" ∧
    (safeFetchStatus item (.error e) none).signature = "UNKNOWN" ∧
    (computeTransition
        (some (pollChannel settings host icon item
            (safeFetchStatus item (.error e) none) none nmap now).state)
        live settings).shouldNotify = true := by
  have hTrans :
      (computeTransition none (safeFetchStatus item (.error e) none)
        settings).shouldNotify = false := by
    simp [computeTransition, safeFetchStatus]
  refine ⟨by simp [safeFetchStatus], by simp [safeFetchStatus, strOr],
    by simp [safeFetchStatus, strOr], ?_⟩
  simp [pollChannel, hTrans, mkChannelState, computeTransition,
    safeFetchStatus, hlive]

/-- Witness for C10: concrete first-poll timeout followed by a live status. -/
theorem safeFetchStatus_first_failure_unknown_witness :
    wStatusLive.isLive = true ∧ wSettings.notifyIfAlreadyLive = false ∧
    ((safeFetchStatus wItem (.error .timeout) none).isLive = false ∧
      (safeFetchStatus wItem (.error .timeout) none).title = "" ∧
      (safeFetchStatus wItem (.error .timeout) none).signature = "UNKNOWN" ∧
      (computeTransition
          (some (pollChannel wSettings hostOk none wItem
              (safeFetchStatus wItem (.error .timeout) none) none [] 50).state)
          wStatusLive wSettings).shouldNotify = true) :=
  ⟨by decide, by decide,
    safeFetchStatus_first_failure_unknown wItem .timeout wSettings hostOk none
      [] 50 wStatusLive (by decide) (by decide)⟩

/-- C1: over cycles observing `[offline, live(sig=A), live(sig=A),
live(sig=A)]` with the cooldown exceeding the total elapsed time, exactly one
notification fires — on the offline-to-live step — and every later
same-signature live poll is suppressed. -/
theorem poll_sequence_single_alert (settings : Settings) (host : String → Bool)
    (icon : Option String) (item : Item) (s0 s1 s2 s3 : ChannelStatus)
    (t0 t1 t2 t3 : Int) (A : String)
    (h0 : s0.isLive = false)
    (h1 : s1.isLive = true) (hs1 : s1.signature = A)
    (h2 : s2.isLive = true) (hs2 : s2.signature = A)
    (h3 : s3.isLive = true) (hs3 : s3.signature = A)
    (ht01 : t0 ≤ t1) (ht12 : t1 ≤ t2) (ht23 : t2 ≤ t3)
    (hcool : t3 - t0 < settings.cooldownMin * 60000) :
    runCycles settings host icon item none []
      [(s0, t0), (s1, t1), (s2, t2), (s3, t3)] = [false, true, false, false] := by
  have hT0 : (computeTransition none s0 settings).shouldNotify = false := by
    simp [computeTransition, h0]
  have hOut0 :
      pollChannel settings host icon item s0 none [] t0 =
        { state := mkChannelState s0 t0, notified := [], didNotify := false
          shown := false } := by
    simp [pollChannel, hT0]
  have hPrev0 : (mkChannelState s0 t0).lastIsLive = false := by
    simp [mkChannelState, h0]
  have hT1 :
      (computeTransition (some (mkChannelState s0 t0)) s1 settings).shouldNotify
        = true := by
    simp [computeTransition, hPrev0, h1]
  have hCan1 : canNotify item.key s1.signature [] settings t1 = true := by
    simp [canNotify, lookupStore]
  have hOut1 :
      pollChannel settings host icon item s1 (some (mkChannelState s0 t0)) [] t1 =
        { state := mkChannelState s1 t1
          notified := insertStore [] item.key
            { lastNotifiedSig := s1.signature, lastNotifiedAt := some t1 }
          didNotify := true
          shown := notifyRun host (icon.getD DEFAULT_ICON_URL) } := by
    simp [pollChannel, hT1, hCan1]
  have hPrev1 : (mkChannelState s1 t1).lastIsLive = true := by
    simp [mkChannelState, h1]
  have hT2 :
      (computeTransition (some (mkChannelState s1 t1)) s2 settings).shouldNotify
        = false := by
    simp [computeTransition, hPrev1]
  have hPrev2 : (mkChannelState s2 t2).lastIsLive = true := by
    simp [mkChannelState, h2]
  have hT3 :
      (computeTransition (some (mkChannelState s2 t2)) s3 settings).shouldNotify
        = false := by
    simp [computeTransition, hPrev2]
  have hOutF : ∀ (st : ChannelStatus) (pv : Option ChannelState)
      (nm : NotifiedMap) (tt : Int),
      (computeTransition pv st settings).shouldNotify = false →
      pollChannel settings host icon item st pv nm tt =
        { state := mkChannelState st tt, notified := nm, didNotify := false
          shown := false } := by
    intro st pv nm tt h
    simp [pollChannel, h]
  have hOut2 := hOutF s2 (some (mkChannelState s1 t1))
    (insertStore [] item.key
      { lastNotifiedSig := s1.signature, lastNotifiedAt := some t1 }) t2 hT2
  have hOut3 := hOutF s3 (some (mkChannelState s2 t2))
    (insertStore [] item.key
      { lastNotifiedSig := s1.signature, lastNotifiedAt := some t1 }) t3 hT3
  simp [runCycles, hOut0, hOut1, hOut2, hOut3]

/-- Witness for C1: concrete offline-then-live-three-times sequence at times
0,1,2,3 with a 10-minute cooldown. -/
theorem poll_sequence_single_alert_witness :
    wStatusOff.isLive = false ∧ wStatusLive.isLive = true ∧
    wStatusLive.signature = "OPEN:T" ∧
    (3 : Int) - 0 < wSettings.cooldownMin * 60000 ∧
    runCycles wSettings hostOk none wItem none []
      [(wStatusOff, 0), (wStatusLive, 1), (wStatusLive, 2), (wStatusLive, 3)] =
      [false, true, false, false] :=
  ⟨by decide, by decide, by decide, by decide,
    poll_sequence_single_alert wSettings hostOk none wItem
      wStatusOff wStatusLive wStatusLive wStatusLive 0 1 2 3 "OPEN:T"
      (by decide) (by decide) (by decide) (by decide) (by decide) (by decide)
      (by decide) (by decide) (by decide) (by decide) (by decide)⟩

/-- C5 counterexample: the claim says a `NotificationRecord` is recorded only
when a notification is actually issued, but the code writes
`notified[item.key]` after `await notify(...)` unconditionally — here the host
rejects both the requested icon and the default-icon retry (`shown = false`),
yet the record is created. -/
theorem notified_recorded_despite_create_failure :
    (pollChannel wSettings hostFail none wItem wStatusLive
        (some wPrevOff) [] 1000).shown = false ∧
    lookupStore (pollChannel wSettings hostFail none wItem wStatusLive
        (some wPrevOff) [] 1000).notified "chzzk:abc" =
      some { lastNotifiedSig := "OPEN:T", lastNotifiedAt := some 1000 } := by
  decide

/-- C5 (amended): the `NotificationRecord` is created/updated exactly when the
transition detector and the cooldown gate both pass, regardless of whether
notification creation succeeded at the host layer (the record and `didNotify`
are independent of the host); when nothing was recorded the `notified` map is
unchanged. The poll cycle always continues (the embedding is total). -/
theorem notified_follows_gate (settings : Settings) (host host2 : String → Bool)
    (icon icon2 : Option String) (item : Item) (status : ChannelStatus)
    (prev : Option ChannelState) (nmap : NotifiedMap) (now : Int) :
    (pollChannel settings host icon item status prev nmap now).notified =
      (pollChannel settings host2 icon2 item status prev nmap now).notified ∧
    (pollChannel settings host icon item status prev nmap now).didNotify =
      (pollChannel settings host2 icon2 item status prev nmap now).didNotify ∧
    ((pollChannel settings host icon item status prev nmap now).didNotify = true →
      lookupStore (pollChannel settings host icon item status prev nmap now).notified
          item.key =
        some { lastNotifiedSig := status.signature, lastNotifiedAt := some now }) ∧
    ((pollChannel settings host icon item status prev nmap now).didNotify = false →
      (pollChannel settings host icon item status prev nmap now).notified = nmap) := by
  by_cases hT : (computeTransition prev status settings).shouldNotify = true
  · by_cases hC : canNotify item.key status.signature nmap settings now = true
    · simp [pollChannel, hT, hC, lookupStore_insertStore_self]
    · simp [pollChannel, hT, hC]
  · simp [pollChannel, hT]

/-- Witness for C5's amended theorem: a failing host and a succeeding host
produce the same record. -/
theorem notified_follows_gate_witness :
    (pollChannel wSettings hostFail none wItem wStatusLive (some wPrevOff)
        [] 1000).notified =
      (pollChannel wSettings hostOk (some "data:image/png;base64,x") wItem
        wStatusLive (some wPrevOff) [] 1000).notified ∧
    (pollChannel wSettings hostFail none wItem wStatusLive (some wPrevOff)
        [] 1000).didNotify =
      (pollChannel wSettings hostOk (some "data:image/png;base64,x") wItem
        wStatusLive (some wPrevOff) [] 1000).didNotify ∧
    ((pollChannel wSettings hostFail none wItem wStatusLive (some wPrevOff)
        [] 1000).didNotify = true →
      lookupStore (pollChannel wSettings hostFail none wItem wStatusLive
          (some wPrevOff) [] 1000).notified wItem.key =
        some { lastNotifiedSig := wStatusLive.signature
               lastNotifiedAt := some 1000 }) ∧
    ((pollChannel wSettings hostFail none wItem wStatusLive (some wPrevOff)
        [] 1000).didNotify = false →
      (pollChannel wSettings hostFail none wItem wStatusLive (some wPrevOff)
        [] 1000).notified = []) :=
  notified_follows_gate wSettings hostFail hostOk none
    (some "data:image/png;base64,x") wItem wStatusLive (some wPrevOff) [] 1000

theorem listGetSet {α : Type} (l : List α) (n m : Nat) (a : α) :
    (l.set n a).get? m =
      if n = m then (if n < l.length then some a else none) else l.get? m := by
  rw [List.get?_set]
  by_cases h : n = m
  · subst h
    rw [if_pos rfl, if_pos rfl]
    by_cases hl : n < l.length
    · rw [if_pos hl]
      obtain ⟨v, hv⟩ : ∃ v, l.get? n = some v := by
        cases hg : l.get? n with
        | none => rw [List.get?_eq_none] at hg; omega
        | some v => exact ⟨v, rfl⟩
      rw [hv]; rfl
    · rw [if_neg hl, List.get?_eq_none.2 (by omega)]; rfl
  · rw [if_neg h, if_neg h]

theorem listGetReplicate {α : Type} (n m : Nat) (a : α) :
    (List.replicate n a).get? m = if m < n then some a else none := by
  induction n generalizing m with
  | zero => simp
  | succ n ih =>
    cases m with
    | zero => simp [List.replicate_succ]
    | succ m =>
      rw [List.replicate_succ, List.get?_cons_succ, ih m]
      by_cases h : m < n <;> simp [h, Nat.succ_lt_succ_iff]

theorem listGetRangeMapSome (W j : Nat) :
    ((List.range W).map some).get? j =
      if j < W then some (some j) else none := by
  by_cases h : j < W
  · rw [List.get?_map, List.get?_range h, if_pos h]; rfl
  · rw [List.get?_map, List.get?_eq_none.2 (by simp; omega), if_neg h]; rfl

theorem poolInv_init {ι β ε : Type} (items : List ι) (task : ι → Except ε β)
    (limit : Nat) : PoolInv items task limit (initPool β limit items.length) := by
  constructor
  · simp [initPool]
  · simp [initPool]
  · simp [initPool]
  · intro j i hj
    rw [initPool] at hj
    simp only at hj
    rw [listGetRangeMapSome] at hj
    by_cases h : j < min limit items.length
    · rw [if_pos h] at hj
      simp only [Option.some.injEq] at hj
      simp [initPool, ← hj, h]
    · rw [if_neg h] at hj
      exact Option.noConfusion hj
  · intro i hi
    right
    refine ⟨i, ?_⟩
    rw [initPool] at hi ⊢
    simp only at hi ⊢
    rw [listGetRangeMapSome, if_pos hi]
  · rintro ⟨j, hj⟩
    rw [initPool] at hj
    simp only at hj
    rw [listGetRangeMapSome] at hj
    by_cases h : j < min limit items.length
    · rw [if_pos h] at hj
      simp at hj
    · rw [if_neg h] at hj
      exact Option.noConfusion hj

theorem poolInv_step {ι β ε : Type} {items : List ι} {task : ι → Except ε β}
    {limit : Nat} {s t : PoolState β} (hinv : PoolInv items task limit s)
    (hstep : PoolStep items task s t) : PoolInv items task limit t := by
  have hE : ∀ (i : Nat) (it : ι), items.get? i = some it →
      (items.map (taskResult task)).get? i = some (taskResult task it) := by
    intro i it hit
    rw [List.get?_map, hit]; rfl
  cases hstep with
  | grab j i it hw hit hn =>
    have hjlen : j < s.workers.length := by
      by_contra hcon
      rw [List.get?_eq_none.2 (by omega)] at hw
      exact Option.noConfusion hw
    have hilen : i < items.length := by
      by_contra hcon
      rw [List.get?_eq_none.2 (by omega)] at hit
      exact Option.noConfusion hit
    have hresi : (s.results.set i (taskResult task it)).get? i =
        (items.map (taskResult task)).get? i := by
      rw [listGetSet, if_pos rfl, if_pos (by rw [hinv.results_len]; exact hilen),
        hE i it hit]
    refine ⟨?_, ?_, ?_, ?_, ?_, ?_⟩
    · simp [List.length_set, hinv.workers_len]
    · simp [List.length_set, hinv.results_len]
    · simp only; omega
    · intro j' i' hj'
      simp only at hj'
      rw [listGetSet] at hj'
      by_cases hjj : j = j'
      · rw [if_pos hjj, if_pos hjlen] at hj'
        simp only [Option.some.injEq] at hj'
        simp only
        omega
      · rw [if_neg hjj] at hj'
        have := hinv.running_lt j' i' hj'
        simp only
        omega
    · intro i' hi'
      simp only at hi' ⊢
      by_cases hii : i' = s.nextIdx
      · right
        refine ⟨j, ?_⟩
        rw [listGetSet, if_pos rfl, if_pos hjlen, hii]
      · have hi2 : i' < s.nextIdx := by omega
        by_cases hie : i' = i
        · left
          rw [hie]
          exact hresi
        · rcases hinv.covered i' hi2 with hres | ⟨j', hj'⟩
          · left
            rw [listGetSet, if_neg (fun h => hie h.symm)]
            exact hres
          · by_cases hjj : j = j'
            · rw [← hjj, hw] at hj'
              simp only [Option.some.injEq] at hj'
              exact absurd hj'.symm hie
            · right
              exact ⟨j', by rw [listGetSet, if_neg hjj]; exact hj'⟩
    · rintro ⟨j', hj'⟩
      simp only at hj' ⊢
      rw [listGetSet] at hj'
      by_cases hjj : j = j'
      · rw [if_pos hjj, if_pos hjlen] at hj'
        simp at hj'
      · rw [if_neg hjj] at hj'
        have := hinv.exited_exhausted ⟨j', hj'⟩
        omega
  | exit j i it hw hit hn =>
    have hjlen : j < s.workers.length := by
      by_contra hcon
      rw [List.get?_eq_none.2 (by omega)] at hw
      exact Option.noConfusion hw
    have hilen : i < items.length := by
      by_contra hcon
      rw [List.get?_eq_none.2 (by omega)] at hit
      exact Option.noConfusion hit
    have hresi : (s.results.set i (taskResult task it)).get? i =
        (items.map (taskResult task)).get? i := by
      rw [listGetSet, if_pos rfl, if_pos (by rw [hinv.results_len]; exact hilen),
        hE i it hit]
    refine ⟨?_, ?_, ?_, ?_, ?_, ?_⟩
    · simp [List.length_set, hinv.workers_len]
    · simp [List.length_set, hinv.results_len]
    · exact hinv.next_le
    · intro j' i' hj'
      simp only at hj'
      rw [listGetSet] at hj'
      by_cases hjj : j = j'
      · rw [if_pos hjj, if_pos hjlen] at hj'
        simp at hj'
      · rw [if_neg hjj] at hj'
        exact hinv.running_lt j' i' hj'
    · intro i' hi'
      simp only at hi' ⊢
      by_cases hie : i' = i
      · left
        rw [hie]
        exact hresi
      · rcases hinv.covered i' hi' with hres | ⟨j', hj'⟩
        · left
          rw [listGetSet, if_neg (fun h => hie h.symm)]
          exact hres
        · by_cases hjj : j = j'
          · rw [← hjj, hw] at hj'
            simp only [Option.some.injEq] at hj'
            exact absurd hj'.symm hie
          · right
            exact ⟨j', by rw [listGetSet, if_neg hjj]; exact hj'⟩
    · intro _
      simp only
      omega

theorem poolInv_reachable {ι β ε : Type} {items : List ι}
    {task : ι → Except ε β} {limit : Nat} {s : PoolState β}
    (h : PoolReachable items task limit s) : PoolInv items task limit s := by
  induction h with
  | refl => exact poolInv_init items task limit
  | tail hsteps hstep ih => exact poolInv_step ih hstep

/-- C8: in every reachable interleaving of `mapPool`, at most `limit` tasks
are in flight simultaneously; moreover, until the items are exhausted
(`nextIdx < items.length`), exactly `min limit items.length` tasks are in
flight — e.g. exactly 4 of 20 with `limit = 4`, and never more than 3 of 10
with `limit = 3`. -/
theorem mapPool_concurrency_bound {ι β ε : Type} (items : List ι)
    (task : ι → Except ε β) (limit : Nat) (s : PoolState β)
    (h : PoolReachable items task limit s) :
    runningCount s.workers ≤ limit ∧
      (s.nextIdx < items.length →
        runningCount s.workers = min limit items.length) := by
  have hinv := poolInv_reachable h
  constructor
  · calc runningCount s.workers ≤ s.workers.length := List.countP_le_length _
      _ = min limit items.length := hinv.workers_len
      _ ≤ limit := Nat.min_le_left _ _
  · intro hlt
    have hall : ∀ w ∈ s.workers, Option.isSome w = true := by
      intro w hw
      cases w with
      | some i => rfl
      | none =>
        obtain ⟨j, hj⟩ := List.mem_iff_get?.1 hw
        have := hinv.exited_exhausted ⟨j, hj⟩
        omega
    rw [← hinv.workers_len, runningCount]
    exact List.countP_eq_length.2 hall

/-- Witness for C8: the initial state with 10 items and `limit = 3` has
exactly 3 tasks in flight. -/
theorem mapPool_concurrency_bound_witness :
    runningCount (initPool Nat 3 (List.range 10).length).workers ≤ 3 ∧
      ((initPool Nat 3 (List.range 10).length).nextIdx < (List.range 10).length →
        runningCount (initPool Nat 3 (List.range 10).length).workers =
          min 3 (List.range 10).length) :=
  mapPool_concurrency_bound (List.range 10) wTaskOk 3 _ Relation.ReflTransGen.refl

/-- C7: whenever `mapPool` finishes (every worker's loop has exited, in any
reachable interleaving), the results array has exactly one entry per input
item, in input order: slot `i` holds the value of the task on `items[i]`, and
`none` (JS `null`) for any item whose task raised — a failing task never
aborts the rest of the batch. -/
theorem mapPool_results_ordered {ι β ε : Type} (items : List ι)
    (task : ι → Except ε β) (limit : Nat) (s : PoolState β)
    (hlim : 1 ≤ limit) (h : PoolReachable items task limit s)
    (hfin : allFinished s.workers) :
    s.results = items.map (taskResult task) := by
  have hinv := poolInv_reachable h
  rcases Nat.eq_zero_or_pos items.length with hn | hn
  · have h1 : s.results = [] := by
      rw [← List.length_eq_zero, hinv.results_len, hn]
    have h2 : items = [] := List.length_eq_zero.1 hn
    rw [h1, h2]
    rfl
  · have hWpos : 0 < s.workers.length := by
      rw [hinv.workers_len]
      omega
    obtain ⟨w, hw⟩ : ∃ w, s.workers.get? 0 = some w := by
      cases hg : s.workers.get? 0 with
      | none => rw [List.get?_eq_none] at hg; omega
      | some w => exact ⟨w, rfl⟩
    have hwnone : w = none := hfin w (List.get?_mem hw)
    have hex : items.length ≤ s.nextIdx :=
      hinv.exited_exhausted ⟨0, by rw [hw, hwnone]⟩
    apply List.ext_get?
    intro i
    by_cases hi : i < items.length
    · rcases hinv.covered i (by omega) with hres | ⟨j, hj⟩
      · exact hres
      · have := hfin (some i) (List.get?_mem hj)
        exact Option.noConfusion this
    · rw [List.get?_eq_none.2 (by rw [hinv.results_len]; omega),
        List.get?_eq_none.2 (by simp only [List.length_map]; omega)]

/-- Witness for C7: a full two-item run with `limit = 1` where the second task
raises; the final results are `[some 10, none]`, in input order. -/
theorem mapPool_results_ordered_witness :
    (PoolState.mk 2 [none] [some 10, none] : PoolState Nat).results =
      [10, 11].map (taskResult wTask) :=
  mapPool_results_ordered [10, 11] wTask 1 ⟨2, [none], [some 10, none]⟩
    (by decide)
    (Relation.ReflTransGen.tail
      (Relation.ReflTransGen.single
        (PoolStep.grab ⟨1, [some 0], [none, none]⟩ 0 0 10 rfl rfl (by decide)))
      (PoolStep.exit ⟨2, [some 1], [some 10, none]⟩ 0 1 11 rfl rfl (by decide)))
    (by intro w hw; simpa using hw)

theorem fetchImageAsDataUrl_fails (s : String) (hs : s ≠ "")
    (f : Except String ImgResponse) (hf : imgFetchFails f = true) :
    ∃ e, fetchImageAsDataUrl s f = .error e := by
  cases f with
  | error e => exact ⟨e, by simp [fetchImageAsDataUrl, hs]⟩
  | ok r =>
    cases hok : r.ok with
    | false =>
      exact ⟨"image HTTP error", by simp [fetchImageAsDataUrl, hs, hok]⟩
    | true =>
      by_cases hct : (r.contentType.toLower ≠ "" ∧
          ¬ (r.contentType.toLower).startsWith "image/")
      · refine ⟨"not an image: " ++ r.contentType.toLower, ?_⟩
        unfold fetchImageAsDataUrl
        rw [if_neg hs]
        simp only [hok, Bool.not_true, Bool.false_eq_true, if_false]
        rw [if_pos hct]
      · have hsz : r.byteLength > AVATAR_ICON_MAX_BYTES := by
          simp only [imgFetchFails, hok, Bool.not_true, Bool.false_or,
            Bool.or_eq_true, Bool.and_eq_true, decide_eq_true_iff,
            Bool.not_eq_true'] at hf
          rcases hf with ⟨h1, h2⟩ | h
          · exact absurd ⟨by simpa using h1, by simp [h2]⟩ hct
          · exact h
        refine ⟨"image too large", ?_⟩
        unfold fetchImageAsDataUrl
        rw [if_neg hs]
        simp only [hok, Bool.not_true, Bool.false_eq_true, if_false]
        rw [if_neg hct, if_pos hsz]

/-- C9: the avatar resolver never propagates an internal failure: with no
fresh cached icon, a failing or empty platform-URL lookup yields `none`, and
a failing image download (HTTP error, non-image content-type, payload over
512 KB, or timeout) yields `none` — never an exception (the embedding's outer
match is the code's `try/catch`). -/
theorem getAvatarIconUrl_failure_yields_none (item : Item) (cache : AvatarCache)
    (now : Int) (urlFetch : Except String (Option String))
    (imgFetch : Except String ImgResponse)
    (hnd : freshDataCache ((lookupStore cache item.key).getD {}) now = false) :
    ((freshUrlCache ((lookupStore cache item.key).getD {}) now = false →
        (∀ e, urlFetch = .error e →
          (getAvatarIconUrl item cache now urlFetch imgFetch).1 = none) ∧
        (urlFetch = .ok none →
          (getAvatarIconUrl item cache now urlFetch imgFetch).1 = none)) ∧
      (imgFetchFails imgFetch = true →
        (getAvatarIconUrl item cache now urlFetch imgFetch).1 = none)) := by
  constructor
  · intro hnu
    constructor
    · intro e he
      subst he
      by_cases hp : (item.platform = "chzzk" ∨ item.platform = "soop") <;>
        simp [getAvatarIconUrl, getAvatarIconUrlBody, hnd, hnu, hp, truthyStr]
    · intro he
      subst he
      by_cases hp : (item.platform = "chzzk" ∨ item.platform = "soop") <;>
        simp [getAvatarIconUrl, getAvatarIconUrlBody, hnd, hnu, hp, truthyStr]
  · intro hC
    by_cases hfu : freshUrlCache ((lookupStore cache item.key).getD {}) now = true
    · have htr : truthyStr ((lookupStore cache item.key).getD
          (({} : AvatarCacheEntry))).url = true := by
        simp only [freshUrlCache, Bool.and_eq_true] at hfu
        exact hfu.1.1
      cases hcu : ((lookupStore cache item.key).getD ({} : AvatarCacheEntry)).url with
      | none => rw [hcu] at htr; simp [truthyStr] at htr
      | some us =>
        have hus : us ≠ "" := by
          rw [hcu] at htr
          simpa [truthyStr] using htr
        obtain ⟨e, he⟩ := fetchImageAsDataUrl_fails us hus imgFetch hC
        simp [getAvatarIconUrl, getAvatarIconUrlBody, hnd, hfu, hcu, truthyStr,
          hus, he]
    · have hnu : freshUrlCache ((lookupStore cache item.key).getD {}) now = false :=
        by simpa using hfu
      cases urlFetch with
      | error e =>
        by_cases hp : (item.platform = "chzzk" ∨ item.platform = "soop") <;>
          simp [getAvatarIconUrl, getAvatarIconUrlBody, hnd, hnu, hp, truthyStr]
      | ok u =>
        by_cases hp : (item.platform = "chzzk" ∨ item.platform = "soop")
        · cases u with
          | none =>
            simp [getAvatarIconUrl, getAvatarIconUrlBody, hnd, hnu, hp, truthyStr]
          | some us =>
            by_cases hus : us = ""
            · simp [getAvatarIconUrl, getAvatarIconUrlBody, hnd, hnu, hp,
                truthyStr, hus]
            · obtain ⟨e, he⟩ := fetchImageAsDataUrl_fails us hus imgFetch hC
              simp [getAvatarIconUrl, getAvatarIconUrlBody, hnd, hnu, hp,
                truthyStr, hus, he]
        · simp [getAvatarIconUrl, getAvatarIconUrlBody, hnd, hnu, hp, truthyStr]

/-- Witness for C9: empty cache, platform lookup raising `HTTP 500`, image
download raising a timeout; the resolver returns `none`. -/
theorem getAvatarIconUrl_failure_yields_none_witness :
    freshDataCache ((lookupStore ([] : AvatarCache) wItem.key).getD {}) 0 = false ∧
    imgFetchFails (.error "timeout") = true ∧
    (getAvatarIconUrl wItem [] 0 (.error "HTTP 500") (.error "timeout")).1 = none :=
  ⟨by decide, by decide,
    (getAvatarIconUrl_failure_yields_none wItem [] 0 (.error "HTTP 500")
      (.error "timeout") (by decide)).2 (by decide)⟩
